import Mathlib

/-
Verification of the Cube ADBC driver core: the NativeClient request/response
engine (native_client.cc) and the CubeArrowReader IPC stream decoder
(3rd_party/apache-arrow-adbc/c/driver/cube/arrow_reader.cc), embedded
shallowly.  Bytes are Nat values (reduced mod 256 where the C code casts
to uint8_t), byte buffers are List Nat, and machine status codes become
small inductive result types.
-/

set_option maxRecDepth 2000

namespace AdbcCube

/-! ## Wire protocol messages (decoded), from native_client.cc -/

/-- A decoded server-to-client message, as dispatched by the switch on the
type byte in NativeClient::ExecuteQuery.  The ipc payloads are raw bytes. -/
inductive ServerMsg where
  | schema (ipc : List Nat)
  | batch (ipc : List Nat)
  | complete (rows : Int)
  | err (code msg : String)
  | other (t : Nat)
deriving DecidableEq, Repr

/-- Outcome of NativeClient::ExecuteQuery.  The constructor stream acc r
means the accumulated bytes acc were handed to CubeArrowReader (line 264 of
native_client.cc); every other constructor is an early return with the
corresponding AdbcStatusCode and no reader constructed. -/
inductive ExecResult where
  | invalidState
  | unauthenticated
  | serverError (code msg : String)
  | protocolError (t : Nat)
  | ioError
  | noData
  | stream (ipc : List Nat) (rows : Int)
deriving DecidableEq, Repr

/-- The response-drain loop of NativeClient::ExecuteQuery (lines 198-255):
dispatch on the message type, appending QueryResponseSchema AND
QueryResponseBatch ipc bytes to the accumulator, stopping at QueryComplete
(error when the accumulator is empty, per lines 258-261), at a server
Error (ADBC_STATUS_UNKNOWN), or at an unexpected type.  An exhausted
message list models ReadMessage returning empty (an I/O failure). -/
def drainLoop : List ServerMsg → List Nat → ExecResult
  | [], _ => .ioError
  | .schema s :: rest, acc => drainLoop rest (acc ++ s)
  | .batch b :: rest, acc => drainLoop rest (acc ++ b)
  | .complete _r :: _, acc => if acc.isEmpty then .noData else .stream acc _r
  | .err c m :: _, _ => .serverError c m
  | .other t :: _, _ => .protocolError t

/-- NativeClient::ExecuteQuery (lines 170-287): require a connected socket,
then require authenticated_ (returning ADBC_STATUS_UNAUTHENTICATED
otherwise), then send the QueryRequest and drain responses.  The Bool
component records whether the QueryRequest was written to the socket. -/
def executeQuery (connected authenticated : Bool) (msgs : List ServerMsg) :
    ExecResult × Bool :=
  if connected = false then (.invalidState, false)
  else if authenticated = false then (.unauthenticated, false)
  else (drainLoop msgs [], true)

/-! ## Frame reading, from NativeClient::ReadMessage -/

/-- Big-endian 32-bit value from four bytes, as assembled at lines 308-311
of native_client.cc (each byte cast from uint8_t). -/
def be32 (b0 b1 b2 b3 : Nat) : Nat :=
  (b0 % 256) * 2 ^ 24 + (b1 % 256) * 2 ^ 16 + (b2 % 256) * 2 ^ 8 + (b3 % 256)

/-- The 100 MiB frame-length bound from line 313 of native_client.cc. -/
def MAX_FRAME_LEN : Nat := 100 * 1024 * 1024

/-- Outcome of NativeClient::ReadMessage: a frame (length prefix plus
payload, as the code returns both) with the unread remainder of the input,
an I/O failure (short read), or a rejected declared length. -/
inductive ReadMsgResult where
  | ok (frame rest : List Nat)
  | ioError
  | badLength (len : Nat)
deriving DecidableEq, Repr

/-- NativeClient::ReadMessage (lines 299-331) over a byte source: read the
4-byte big-endian length, reject length 0 or above 100 MiB, then read
exactly length payload bytes, returning prefix ++ payload. -/
def readMessage : List Nat → ReadMsgResult
  | b0 :: b1 :: b2 :: b3 :: rest =>
    if be32 b0 b1 b2 b3 = 0 ∨ be32 b0 b1 b2 b3 > MAX_FRAME_LEN then
      .badLength (be32 b0 b1 b2 b3)
    else if rest.length < be32 b0 b1 b2 b3 then .ioError
    else .ok (b0 :: b1 :: b2 :: b3 :: rest.take (be32 b0 b1 b2 b3))
      (rest.drop (be32 b0 b1 b2 b3))
  | _ => .ioError

/-! ## Client connection state and Close, from native_client.cc -/

/-- The mutable fields of NativeClient relevant to its lifecycle:
socket_fd_ >= 0 becomes socketOpen, plus authenticated_, session_id_ and
server_version_. -/
structure ClientState where
  socketOpen : Bool
  authenticated : Bool
  session_id : String
  server_version : String
deriving DecidableEq, Repr

/-- NativeClient::Close (lines 289-297): close the socket when open, reset
the descriptor, clear authenticated_, session_id_ and server_version_.
It runs unconditionally in every state and cannot fail. -/
def close (st : ClientState) : ClientState :=
  { socketOpen := false
    authenticated := false
    session_id := ""
    server_version := "" }

/-! ## CubeArrowReader, from arrow_reader.cc -/

/-- The Arrow IPC continuation marker constant (line 30 of arrow_reader.cc). -/
def ARROW_IPC_MAGIC : Nat := 0xFFFFFFFF

/-- ReadLE32 (lines 35-40): little-endian 32-bit read at an offset, each
byte a uint8_t.  The C code only calls it with the four bytes in bounds;
out-of-range reads default to 0 and are never exercised by the theorems. -/
def readLE32 (buf : List Nat) (off : Nat) : Nat :=
  buf.getD off 0 % 256 + buf.getD (off + 1) 0 % 256 * 2 ^ 8 +
    buf.getD (off + 2) 0 % 256 * 2 ^ 16 + buf.getD (off + 3) 0 % 256 * 2 ^ 24

/-- The int64 assembled at lines 204-205 of arrow_reader.cc: two uint32
little-endian reads zero-extended and combined, then reinterpreted as a
signed 64-bit value. -/
def readLE64AsInt (buf : List Nat) (off : Nat) : Int :=
  let u : Nat := readLE32 buf off + readLE32 buf (off + 4) * 2 ^ 32
  if u < 2 ^ 63 then (u : Int) else (u : Int) - 2 ^ 64

/-- The logical column types the reader state can carry.  The stub Init of
arrow_reader.cc only ever produces int64. -/
inductive ArrowType where
  | int64
deriving DecidableEq, Repr

/-- One field of the materialized schema mirror: name, type, nullable flag
(nanoarrow ArrowSchemaSetType leaves ARROW_FLAG_NULLABLE set). -/
structure FieldSpec where
  name : String
  typ : ArrowType
  nullable : Bool
deriving DecidableEq, Repr

/-- The CubeArrowReader state: the owned IPC byte buffer, the cursor
offset_, the materialized schema fields, and the schema_initialized_ and
finished_ flags. -/
structure ReaderState where
  buffer : List Nat
  offset : Nat
  schemaFields : List FieldSpec
  schemaInitialized : Bool
  finished : Bool
deriving DecidableEq, Repr

/-- Failure cases of CubeArrowReader::Init, each an EINVAL return with the
ArrowErrorSet message at the cited line. -/
inductive InitErr where
  | emptyBuffer
  | headerTooSmall
  | badContinuation
deriving DecidableEq, Repr

/-- Rounds the cursor up to the next 8-byte boundary, as at lines 133-136
of arrow_reader.cc. -/
def align8 (n : Nat) : Nat := if n % 8 = 0 then n else n + (8 - n % 8)

/-- CubeArrowReader::Init (lines 59-141): reject an empty buffer, then a
buffer shorter than the 8-byte message header, read the continuation
marker and metadata size, reject a marker other than 0xFFFFFFFF, then
SKIP the FlatBuffer entirely and install the hardcoded schema consisting
of the single nullable int64 field named test (lines 104-130), advancing
offset_ past the schema message to the next 8-byte boundary. -/
def initReader (buf : List Nat) : Except InitErr ReaderState :=
  if buf.isEmpty then .error .emptyBuffer
  else if buf.length < 0 + 8 then .error .headerTooSmall
  else if readLE32 buf 0 ≠ ARROW_IPC_MAGIC then .error .badContinuation
  else
    .ok { buffer := buf
          offset := align8 (8 + readLE32 buf 4)
          schemaFields := [⟨"test", .int64, true⟩]
          schemaInitialized := true
          finished := false }

/-- What one CubeArrowReader::GetNext call reports: EINVAL when the schema
is not initialized, ENOMSG (no more messages), or NANOARROW_OK with the
single-row int64 struct array the stub builds. -/
inductive GetNextOut where
  | errNotInit
  | eos
  | array (value : Int)
deriving DecidableEq, Repr

/-- The int64 value extraction at lines 198-209 of arrow_reader.cc:
default 1; when the buffer has at least 8 bytes, compute
data_offset = size - 16 in size_t arithmetic and read 8 bytes there if
data_offset < size — which, because the subtraction wraps, holds exactly
when the buffer has at least 16 bytes. -/
def extractValue (buf : List Nat) : Int :=
  if 8 ≤ buf.length then
    if 16 ≤ buf.length then readLE64AsInt buf (buf.length - 16) else 1
  else 1

/-- CubeArrowReader::GetNext (lines 154-263): EINVAL without a schema;
ENOMSG when finished_ or when fewer than 8 bytes remain (setting
finished_); on a continuation marker other than 0xFFFFFFFF, set finished_
and return ENOMSG (lines 180-190 — the nested EOS test there is dead
code, so this branch silently ends the stream); otherwise build the
one-row array and set finished_ (line 260), leaving offset_ unchanged. -/
def getNext (st : ReaderState) : GetNextOut × ReaderState :=
  if st.schemaInitialized = false then (.errNotInit, st)
  else if st.finished = true then (.eos, st)
  else if st.buffer.length < st.offset + 8 then (.eos, { st with finished := true })
  else if readLE32 st.buffer st.offset ≠ ARROW_IPC_MAGIC then
    (.eos, { st with finished := true })
  else (.array (extractValue st.buffer), { st with finished := true })

/-! ## Stream adapter callbacks, from arrow_reader.cc lines 347-393 -/

/-- What a CubeArrowStreamGetNext call delivers to the Arrow C Data
Interface consumer: success with out.release left null (end of stream),
success with an array installed, or a nonzero status passed through. -/
inductive StreamNextOut where
  | endOfStream
  | gotArray (value : Int)
  | errCode
deriving DecidableEq, Repr

/-- CubeArrowStreamGetNext (lines 357-372): call GetNext; map ENOMSG to a
success return with out.release = nullptr, pass arrays and other statuses
through. -/
def streamGetNext (st : ReaderState) : StreamNextOut × ReaderState :=
  match getNext st with
  | (.eos, st1) => (.endOfStream, st1)
  | (.array v, st1) => (.gotArray v, st1)
  | (.errNotInit, st1) => (.errCode, st1)

/-- n further CubeArrowStreamGetNext calls after the first: the result of
the last call in a chain of n + 1 calls threading the reader state. -/
def streamGetNextN : Nat → ReaderState → StreamNextOut × ReaderState
  | 0, st => streamGetNext st
  | n + 1, st => streamGetNextN n (streamGetNext st).2

/-! ## Concrete buffers used as evidence inputs -/

/-- An IPC buffer holding a schema message followed by two RecordBatch
messages and an EOS marker, every message with marker 0xFFFFFFFF, metadata
size 8 and an 8-byte FlatBuffer region (batch 2 carrying value 7 in the
16 bytes before the EOS marker). -/
def twoBatchBuf : List Nat :=
  [255, 255, 255, 255, 8, 0, 0, 0, 0, 0, 0, 0, 0, 0, 0, 0,
   255, 255, 255, 255, 8, 0, 0, 0, 1, 2, 3, 4, 5, 6, 7, 8,
   255, 255, 255, 255, 8, 0, 0, 0, 7, 0, 0, 0, 0, 0, 0, 0,
   255, 255, 255, 255, 0, 0, 0, 0]

/-- An IPC buffer holding a valid schema message followed by 8 bytes of
zeros: the second message boundary carries marker 0x00000000 instead of
the required continuation marker. -/
def badMarkerBuf : List Nat :=
  [255, 255, 255, 255, 8, 0, 0, 0, 0, 0, 0, 0, 0, 0, 0, 0,
   0, 0, 0, 0, 0, 0, 0, 0]

/-! ## Claim theorems -/

/-- Claim C1 (code_bug evidence): the ExecuteQuery drain loop of
native_client.cc APPENDS the QueryResponseSchema ipc bytes to the
accumulator (lines 210-218), so the buffer handed to CubeArrowReader is
the schema stream bytes followed by the batch stream bytes — here
[9, 7], not the batch bytes [7] alone as the claim states. -/
theorem c1_executeQuery_includes_schema_bytes :
    executeQuery true true
        [ServerMsg.schema [9], ServerMsg.batch [7], ServerMsg.complete 0] =
      (.stream [9, 7] 0, true) := rfl

/-- Claim C2 (code_bug evidence): CubeArrowReader::Init ignores the
FlatBuffer payload — two buffers with the same valid message header but
entirely different 8-byte FlatBuffer payloads both materialize the
identical hardcoded schema of one nullable int64 field named test, with
the cursor at offset 16. -/
theorem c2_init_schema_hardcoded :
    (initReader [255, 255, 255, 255, 8, 0, 0, 0, 1, 2, 3, 4, 5, 6, 7, 8]).toOption =
      some { buffer := [255, 255, 255, 255, 8, 0, 0, 0, 1, 2, 3, 4, 5, 6, 7, 8]
             offset := 16
             schemaFields := [⟨"test", .int64, true⟩]
             schemaInitialized := true
             finished := false } ∧
    (initReader [255, 255, 255, 255, 8, 0, 0, 0, 250, 251, 0, 0, 9, 9, 9, 9]).toOption =
      some { buffer := [255, 255, 255, 255, 8, 0, 0, 0, 250, 251, 0, 0, 9, 9, 9, 9]
             offset := 16
             schemaFields := [⟨"test", .int64, true⟩]
             schemaInitialized := true
             finished := false } := by
  exact ⟨by decide, by decide⟩

/-- Claim C3 (code_bug evidence): on a buffer with two RecordBatch
messages followed by an EOS marker, the first GetNext yields one array
(with the stub-extracted value 7) while marking the reader finished and
leaving the cursor at the schema-end offset 16, and the second GetNext
already reports end-of-stream — one array for two batches, with the
cursor never advanced past the first batch. -/
theorem c3_two_batches_single_array :
    (initReader twoBatchBuf).toOption.map (fun st =>
        ((getNext st).1, (getNext (getNext st).2).1, (getNext st).2.offset)) =
      some (.array 7, .eos, 16) := by decide

/-- Claim C5 counterexample: on a connected, unauthenticated client the
code returns the Unauthenticated status (line 180 of native_client.cc),
which is a different status than the InvalidState the claim names. -/
theorem c5_not_invalid_state :
    executeQuery true false [] = (.unauthenticated, false) ∧
      ExecResult.unauthenticated ≠ ExecResult.invalidState := by
  exact ⟨rfl, by decide⟩

/-- Claim C5 (amended): calling ExecuteQuery on a connected but
not-yet-authenticated client fails with the Unauthenticated status,
whatever the pending server messages, and the QueryRequest is never
sent. -/
theorem c5_execute_unauthenticated (msgs : List ServerMsg) :
    executeQuery true false msgs = (.unauthenticated, false) := rfl

/-- Claim C9: Close is idempotent — from any client state it leaves the
socket closed, authenticated false, session_id and server_version
cleared, and applying Close twice equals applying it once. -/
theorem c9_close_idempotent (st : ClientState) :
    (close st).socketOpen = false ∧ (close st).authenticated = false ∧
      (close st).session_id = "" ∧ (close st).server_version = "" ∧
      close (close st) = close st :=
  ⟨rfl, rfl, rfl, rfl, rfl⟩

/-- Claim C10: a stream result (the accumulator handed to the reader)
only ever carries a nonempty byte list, and a QueryComplete arriving with
nothing accumulated makes ExecuteQuery fail with the no-data error
instead of producing a stream. -/
theorem c10_empty_ipc_error :
    (∀ msgs acc b r, drainLoop msgs acc = .stream b r → b ≠ []) ∧
      ∀ r rest, executeQuery true true (ServerMsg.complete r :: rest) =
        (.noData, true) := by
  constructor
  · intro msgs
    induction msgs with
    | nil =>
      intro acc b r h
      simp [drainLoop] at h
    | cons x xs ih =>
      intro acc b r h
      cases x with
      | schema s => exact ih (acc ++ s) b r h
      | batch b2 => exact ih (acc ++ b2) b r h
      | complete r2 =>
        simp only [drainLoop] at h
        by_cases he : acc.isEmpty
        · rw [if_pos he] at h
          cases h
        · rw [if_neg he] at h
          cases h
          intro hb
          rw [hb] at he
          exact he rfl
      | err c m =>
        simp only [drainLoop] at h
        cases h
      | other t =>
        simp only [drainLoop] at h
        cases h
  · intro r rest
    rfl

/-- Claim C10 witness: the drain loop that accumulated the single batch
byte 5 produced a nonempty stream buffer, and a bare QueryComplete yields
the no-data error. -/
theorem c10_empty_ipc_error_witness :
    ([5] : List Nat) ≠ [] ∧
      executeQuery true true [ServerMsg.complete 0] = (.noData, true) :=
  ⟨c10_empty_ipc_error.1 [ServerMsg.batch [5], ServerMsg.complete 0] [] [5] 0 rfl,
   c10_empty_ipc_error.2 0 []⟩

/-- Claim C4 counterexample: after a valid schema message, a message
boundary carrying the marker 0x00000000 makes the exported stream report
end-of-stream with a success status — not the error return the claim
demands. -/
theorem c4_silent_eos_counterexample :
    (initReader badMarkerBuf).toOption.map (fun st => (streamGetNext st).1) =
      some .endOfStream ∧
    StreamNextOut.endOfStream ≠ StreamNextOut.errCode := by
  exact ⟨by decide, by decide⟩

/-- Claim C4 (amended): a continuation marker other than 0xFFFFFFFF at
the first (schema) message boundary makes Init fail with the
bad-continuation error, while at a boundary reached by GetNext it makes
the reader silently mark itself finished and report end-of-stream. -/
theorem c4_bad_marker_behavior :
    (∀ buf : List Nat, 8 ≤ buf.length → readLE32 buf 0 ≠ ARROW_IPC_MAGIC →
      initReader buf = .error .badContinuation) ∧
    (∀ st : ReaderState, st.schemaInitialized = true → st.finished = false →
      st.offset + 8 ≤ st.buffer.length →
      readLE32 st.buffer st.offset ≠ ARROW_IPC_MAGIC →
      getNext st = (.eos, { st with finished := true })) := by
  constructor
  · intro buf h8 hm
    have hne : buf.isEmpty = false := by
      cases buf with
      | nil => simp at h8
      | cons a l => rfl
    unfold initReader
    rw [hne]
    rw [if_neg (by simp)]
    rw [if_neg (by omega : ¬ buf.length < 0 + 8)]
    rw [if_pos hm]
  · intro st h1 h2 h3 hm
    unfold getNext
    rw [if_neg (by simp [h1])]
    rw [if_neg (by simp [h2])]
    rw [if_neg (by omega : ¬ st.buffer.length < st.offset + 8)]
    rw [if_pos hm]

/-- Claim C4 witness: an all-zero 8-byte buffer fails Init with the
bad-continuation error, and a reader positioned at an all-zero boundary
reports end-of-stream while marking itself finished. -/
theorem c4_bad_marker_behavior_witness :
    initReader [0, 0, 0, 0, 0, 0, 0, 0] = .error .badContinuation ∧
    getNext { buffer := [0, 0, 0, 0, 0, 0, 0, 0], offset := 0,
              schemaFields := [], schemaInitialized := true,
              finished := false } =
      (.eos, { buffer := [0, 0, 0, 0, 0, 0, 0, 0], offset := 0,
               schemaFields := [], schemaInitialized := true,
               finished := true }) :=
  ⟨c4_bad_marker_behavior.1 [0, 0, 0, 0, 0, 0, 0, 0] (by decide) (by decide),
   c4_bad_marker_behavior.2
     { buffer := [0, 0, 0, 0, 0, 0, 0, 0], offset := 0, schemaFields := [],
       schemaInitialized := true, finished := false }
     rfl rfl (by decide) (by decide)⟩

/-- Tests whether a server message is a data-bearing response
(QueryResponseSchema or QueryResponseBatch), the only message kinds that
keep the ExecuteQuery drain loop running while growing the accumulator. -/
def isData : ServerMsg → Bool
  | .schema _ => true
  | .batch _ => true
  | _ => false

/-- The drain loop hits a server Error after any run of data messages:
it stops there with the server code and message, whatever followed. -/
theorem drainLoop_server_error (pre : List ServerMsg) (c m : String)
    (rest : List ServerMsg) (hpre : ∀ x ∈ pre, isData x = true)
    (acc : List Nat) :
    drainLoop (pre ++ ServerMsg.err c m :: rest) acc = .serverError c m := by
  revert hpre
  induction pre generalizing acc with
  | nil => intro _; rfl
  | cons x xs ih =>
    intro hpre
    have hx : isData x = true := hpre x (List.mem_cons_self x xs)
    have hxs : ∀ y ∈ xs, isData y = true :=
      fun y hy => hpre y (List.mem_cons_of_mem x hy)
    cases x with
    | schema s => exact ih (acc ++ s) hxs
    | batch b => exact ih (acc ++ b) hxs
    | complete r => simp [isData] at hx
    | err c2 m2 => simp [isData] at hx
    | other t => simp [isData] at hx

/-- Claim C6: when the response loop of ExecuteQuery meets a server Error
message after any data messages, the whole call returns the server error
carrying that code and message, and the result is never the stream
constructor — the partial accumulator is not handed to CubeArrowReader. -/
theorem c6_server_error_no_stream (pre : List ServerMsg) (c m : String)
    (rest : List ServerMsg) (hpre : ∀ x ∈ pre, isData x = true) :
    executeQuery true true (pre ++ ServerMsg.err c m :: rest) =
      (.serverError c m, true) ∧
    ∀ ipc r, (executeQuery true true (pre ++ ServerMsg.err c m :: rest)).1 ≠
      .stream ipc r := by
  have he : executeQuery true true (pre ++ ServerMsg.err c m :: rest) =
      (drainLoop (pre ++ ServerMsg.err c m :: rest) [], true) := rfl
  rw [he, drainLoop_server_error pre c m rest hpre []]
  exact ⟨rfl, fun ipc r h2 => ExecResult.noConfusion h2⟩

/-- Claim C6 witness: a schema message and a batch message followed by a
server Error produce the server-error result with that code and message,
and not a stream. -/
theorem c6_server_error_no_stream_witness :
    executeQuery true true
        ([ServerMsg.schema [9], ServerMsg.batch [7]] ++
          ServerMsg.err "TBL" "missing table" :: []) =
      (.serverError "TBL" "missing table", true) ∧
    ∀ ipc r, (executeQuery true true
        ([ServerMsg.schema [9], ServerMsg.batch [7]] ++
          ServerMsg.err "TBL" "missing table" :: [])).1 ≠ .stream ipc r :=
  c6_server_error_no_stream [ServerMsg.schema [9], ServerMsg.batch [7]]
    "TBL" "missing table" [] (by decide)

/-- Claim C7: a frame whose 4-byte big-endian declared length is zero or
exceeds 100 MiB is rejected with the bad-length error carrying no
payload, and a frame with a valid declared length yields the length
prefix plus exactly that many payload bytes. -/
theorem c7_read_message_length_bounds (b0 b1 b2 b3 : Nat) (rest : List Nat) :
    (be32 b0 b1 b2 b3 = 0 ∨ MAX_FRAME_LEN < be32 b0 b1 b2 b3 →
      readMessage (b0 :: b1 :: b2 :: b3 :: rest) =
        .badLength (be32 b0 b1 b2 b3)) ∧
    (be32 b0 b1 b2 b3 ≠ 0 → be32 b0 b1 b2 b3 ≤ MAX_FRAME_LEN →
      be32 b0 b1 b2 b3 ≤ rest.length →
      readMessage (b0 :: b1 :: b2 :: b3 :: rest) =
        .ok (b0 :: b1 :: b2 :: b3 :: rest.take (be32 b0 b1 b2 b3))
          (rest.drop (be32 b0 b1 b2 b3)) ∧
      (rest.take (be32 b0 b1 b2 b3)).length = be32 b0 b1 b2 b3) := by
  have hu : readMessage (b0 :: b1 :: b2 :: b3 :: rest) =
      if be32 b0 b1 b2 b3 = 0 ∨ be32 b0 b1 b2 b3 > MAX_FRAME_LEN then
        .badLength (be32 b0 b1 b2 b3)
      else if rest.length < be32 b0 b1 b2 b3 then .ioError
      else .ok (b0 :: b1 :: b2 :: b3 :: rest.take (be32 b0 b1 b2 b3))
        (rest.drop (be32 b0 b1 b2 b3)) := rfl
  constructor
  · intro h
    rw [hu, if_pos h]
  · intro h0 h1 h2
    rw [hu]
    rw [if_neg (by omega : ¬ (be32 b0 b1 b2 b3 = 0 ∨
      be32 b0 b1 b2 b3 > MAX_FRAME_LEN))]
    rw [if_neg (by omega : ¬ rest.length < be32 b0 b1 b2 b3)]
    exact ⟨rfl, by rw [List.length_take]; omega⟩

/-- Claim C7 witness: the zero-length frame is rejected as bad length,
and a frame declaring length 2 over payload bytes 7, 8 with trailing 9
yields exactly the two payload bytes after the prefix, leaving 9
unread. -/
theorem c7_read_message_length_bounds_witness :
    readMessage [0, 0, 0, 0] = .badLength 0 ∧
    (readMessage [0, 0, 0, 2, 7, 8, 9] = .ok [0, 0, 0, 2, 7, 8] [9] ∧
      ([7, 8] : List Nat).length = 2) :=
  ⟨(c7_read_message_length_bounds 0 0 0 0 []).1 (by decide),
   (c7_read_message_length_bounds 0 0 0 2 [7, 8, 9]).2
     (by decide) (by decide) (by decide)⟩

/-- GetNext on an initialized reader already marked finished returns
ENOMSG and leaves the state untouched (lines 163-166 of
arrow_reader.cc). -/
theorem getNext_of_finished (st : ReaderState)
    (h1 : st.schemaInitialized = true) (h2 : st.finished = true) :
    getNext st = (.eos, st) := by
  unfold getNext
  rw [if_neg (by simp [h1]), if_pos h2]

/-- The stream callback on an initialized, finished reader reports
end-of-stream (success, out.release null) and leaves the state
untouched. -/
theorem streamGetNext_of_finished (st : ReaderState)
    (h1 : st.schemaInitialized = true) (h2 : st.finished = true) :
    streamGetNext st = (.endOfStream, st) := by
  unfold streamGetNext
  rw [getNext_of_finished st h1 h2]

/-- Whenever the stream callback reports end-of-stream, the resulting
reader state is finished and still schema-initialized. -/
theorem streamGetNext_eos_state (st st1 : ReaderState)
    (h1 : st.schemaInitialized = true)
    (h : streamGetNext st = (.endOfStream, st1)) :
    st1.schemaInitialized = true ∧ st1.finished = true := by
  unfold streamGetNext at h
  unfold getNext at h
  rw [if_neg (by simp [h1])] at h
  by_cases h2 : st.finished = true
  · rw [if_pos h2] at h
    have h3 : ((StreamNextOut.endOfStream, st) : StreamNextOut × ReaderState) =
        (.endOfStream, st1) := h
    injection h3 with _ hsnd
    subst hsnd
    exact ⟨h1, h2⟩
  · rw [if_neg h2] at h
    by_cases h3 : st.buffer.length < st.offset + 8
    · rw [if_pos h3] at h
      have h4 : ((StreamNextOut.endOfStream, { st with finished := true }) :
          StreamNextOut × ReaderState) = (.endOfStream, st1) := h
      injection h4 with _ hsnd
      subst hsnd
      exact ⟨h1, rfl⟩
    · rw [if_neg h3] at h
      by_cases h5 : readLE32 st.buffer st.offset ≠ ARROW_IPC_MAGIC
      · rw [if_pos h5] at h
        have h6 : ((StreamNextOut.endOfStream, { st with finished := true }) :
            StreamNextOut × ReaderState) = (.endOfStream, st1) := h
        injection h6 with _ hsnd
        subst hsnd
        exact ⟨h1, rfl⟩
      · rw [if_neg h5] at h
        have h7 : ((StreamNextOut.gotArray (extractValue st.buffer),
            { st with finished := true }) :
            StreamNextOut × ReaderState) = (.endOfStream, st1) := h
        exact absurd (congrArg Prod.fst h7) (by simp)

/-- Claim C8: once a CubeArrowStreamGetNext call on an initialized reader
has reported end-of-stream, every later call — after any number n of
further calls — again returns success with out.release left null and the
state unchanged, so no call ever produces another array. -/
theorem c8_eos_absorbing (st st1 : ReaderState)
    (h1 : st.schemaInitialized = true)
    (h : streamGetNext st = (.endOfStream, st1)) (n : Nat) :
    streamGetNextN n st1 = (.endOfStream, st1) := by
  obtain ⟨hs, hf⟩ := streamGetNext_eos_state st st1 h1 h
  have hfix : streamGetNext st1 = (.endOfStream, st1) :=
    streamGetNext_of_finished st1 hs hf
  induction n with
  | zero => exact hfix
  | succ k ih =>
    have hstep : streamGetNextN (k + 1) st1 =
        streamGetNextN k (streamGetNext st1).2 := rfl
    rw [hstep, hfix]
    exact ih

/-- Claim C8 witness: a finished initialized reader keeps answering
end-of-stream through a chain of three stream calls. -/
theorem c8_eos_absorbing_witness :
    streamGetNextN 2 { buffer := [], offset := 0, schemaFields := [],
                       schemaInitialized := true, finished := true } =
      (.endOfStream, { buffer := [], offset := 0, schemaFields := [],
                       schemaInitialized := true, finished := true }) :=
  c8_eos_absorbing
    { buffer := [], offset := 0, schemaFields := [],
      schemaInitialized := true, finished := true }
    { buffer := [], offset := 0, schemaFields := [],
      schemaInitialized := true, finished := true }
    rfl rfl 2

end AdbcCube
